import Mathlib

/-!
Verification of the plugin loading core of the albert launcher.

The definitions below are a shallow embedding of src/src/qtpluginloader.cpp
and src/src/lib/settings/triggerwidget.cpp.  Qt string/JSON semantics are
modelled explicitly: a QJsonValue is modelled by `JsonVal`, with
`JsonVal.toStringQ` mirroring QJsonValue::toString (empty string for
non-string values, including missing keys, which Qt yields as undefined).
The two regular expressions of the validator are embedded as executable
matchers with the exact PCRE semantics of the patterns used by the source
(unanchored search, greedy quantifiers with backtracking, wildcard dots).
Machine integers: QString::toUInt yields 0 when the value exceeds the
32-bit unsigned range; this is modelled in `toUIntQ`.

Parts of the repository referenced but not present under src
(pluginloaderprivate.h with the PluginState bookkeeping, queryengine.h)
are modelled from the specification; those definitions carry a doc
comment starting with: Modelled from the spec.
-/

/-- LoadType from the plugin metadata (qtpluginloader.cpp:84-89). -/
inductive LoadType where
  | Frontend
  | NoUnload
  | User
deriving DecidableEq

/-- A QJsonValue as observed by the source: a string, a string array, or
anything else (missing key, number, object), which the source only ever
reads through toString/toStringList. -/
inductive JsonVal where
  | str (s : String)
  | arr (xs : List String)
  | null
deriving DecidableEq

/-- QJsonValue::toString: the string value, or the empty string for any
non-string value (including a missing key). -/
def JsonVal.toStringQ : JsonVal → String
  | JsonVal.str s => s
  | _ => ""

/-- QJsonValue::toVariant().toStringList(): an array gives its elements, a
string converts to a singleton list, anything else gives the empty list. -/
def JsonVal.toStringListQ : JsonVal → List String
  | JsonVal.str s => [s]
  | JsonVal.arr xs => xs
  | JsonVal.null => []

/-- A JSON object as the source reads it: total lookup from key to value
(missing keys read as null). -/
def JsonObj : Type := String → JsonVal

/-- The key format of qtpluginloader.cpp:21 and 25, QStringLiteral
%1[%2] applied to the key and a locale component. -/
def qtKeyFormat (key loc : String) : String :=
  key ++ ("[") ++ loc ++ ("]")

/-- fetchLocalizedMetadata (qtpluginloader.cpp:15-30).  ln is
QLocale::system().name() (language and territory, such as de_AT), lc is
QLocale::languageToCode of the system language.  Each candidate value is
read with toString and returned when non-empty. -/
def fetchLocalizedMetadata (json : JsonObj) (ln lc : String) (key : String) : String :=
  if (json (qtKeyFormat key ln)).toStringQ ≠ ("") then (json (qtKeyFormat key ln)).toStringQ
  else if (json (qtKeyFormat key lc)).toStringQ ≠ ("") then (json (qtKeyFormat key lc)).toStringQ
  else (json key).toStringQ

/-- PluginMetaData as filled by the QtPluginLoader constructor
(qtpluginloader.cpp:58-89). -/
structure PluginMetaData where
  iid : String
  id : String
  version : String
  name : String
  description : String
  license : String
  url : String
  authors : List String
  runtime_dependencies : List String
  binary_dependencies : List String
  third_party_credits : List String
  load_type : LoadType
deriving DecidableEq

/-- Load type parsing (qtpluginloader.cpp:84-89): frontend and nounload are
recognized, every other string silently yields User. -/
def parseLoadType (lt : String) : LoadType :=
  if lt = ("frontend") then LoadType.Frontend
  else if lt = ("nounload") then LoadType.NoUnload
  else LoadType.User

/-- Metadata extraction from the raw MetaData JSON object
(qtpluginloader.cpp:58-89). -/
def extractMetadata (iid : String) (raw : JsonObj) (ln lc : String) : PluginMetaData :=
  { iid := iid
    id := (raw ("id")).toStringQ
    version := (raw ("version")).toStringQ
    name := fetchLocalizedMetadata raw ln lc ("name")
    description := fetchLocalizedMetadata raw ln lc ("description")
    license := (raw ("license")).toStringQ
    url := (raw ("url")).toStringQ
    authors := (raw ("authors")).toStringListQ
    runtime_dependencies := (raw ("runtime_dependencies")).toStringListQ
    binary_dependencies := (raw ("binary_dependencies")).toStringListQ
    third_party_credits := (raw ("credits")).toStringListQ
    load_type := parseLoadType (raw ("loadtype")).toStringQ }

/-- Match a literal character sequence at the head of the input, returning
the rest on success. -/
def litMatch : List Char → List Char → Option (List Char)
  | [], cs => some cs
  | _ :: _, [] => none
  | p :: ps, c :: cs => if c = p then litMatch ps cs else none

/-- Decimal value of a digit list. -/
def natOfDigits (ds : List Char) : Nat :=
  ds.foldl (fun a c => a * 10 + (c.toNat - 48)) 0

/-- QString::toUInt on a digit capture: the decimal value, or 0 when it
does not fit in 32-bit unsigned (toUInt signals failure by returning 0). -/
def toUIntQ (ds : List Char) : Nat :=
  if natOfDigits ds ≤ 4294967295 then natOfDigits ds else 0

/-- Backtracking for the capture part of the IID regex.  After the literal
prefix the pattern continues with a greedy digit group, a wildcard dot and
a second digit group.  PCRE tries the longest first capture and shortens
it on failure; k bounds the length of the first capture still to try. -/
def tryCaps (r : List Char) : Nat → Option (Nat × Nat)
  | 0 => none
  | k + 1 =>
    match r.drop (k + 1) with
    | [] => tryCaps r k
    | _ :: r2 =>
      match r2.takeWhile Char.isDigit with
      | [] => tryCaps r k
      | d2 => some (toUIntQ (r.take (k + 1)), toUIntQ d2)

/-- One anchored attempt of the IID regex at the current position.  The
pattern (qtpluginloader.cpp:96) is org.albert.PluginInterface/(d+).(d+)
where the unescaped dots are wildcards matching any single character. -/
def matchIIDHere (cs : List Char) : Option (Nat × Nat) :=
  match litMatch (("org").data) cs with
  | none => none
  | some r1 =>
    match r1 with
    | [] => none
    | _ :: r2 =>
      match litMatch (("albert").data) r2 with
      | none => none
      | some r3 =>
        match r3 with
        | [] => none
        | _ :: r4 =>
          match litMatch (("PluginInterface/").data) r4 with
          | none => none
          | some r5 => tryCaps r5 (r5.takeWhile Char.isDigit).length

/-- Unanchored leftmost search of the IID regex. -/
def matchIIDFrom : List Char → Option (Nat × Nat)
  | [] => matchIIDHere []
  | c :: cs =>
    match matchIIDHere (c :: cs) with
    | some r => some r
    | none => matchIIDFrom cs

/-- QRegularExpression match of the IID pattern against the IID string,
with the two numeric captures converted by QString::toUInt
(qtpluginloader.cpp:96-105). -/
def matchIID (s : String) : Option (Nat × Nat) :=
  matchIIDFrom s.data

/-- The version regex (qtpluginloader.cpp:108), anchored on both sides:
one digit group, an optional atomic dot-digit group, a dot and a final
digit group.  Its language is exactly two or three non-empty digit runs
separated by dots. -/
def verMatch (cs : List Char) : Bool :=
  let d1 := cs.takeWhile Char.isDigit
  let r1 := cs.dropWhile Char.isDigit
  if d1.isEmpty then false
  else
    match r1 with
    | '.' :: r2 =>
      let d2 := r2.takeWhile Char.isDigit
      let r3 := r2.dropWhile Char.isDigit
      if d2.isEmpty then false
      else
        match r3 with
        | [] => true
        | '.' :: r4 =>
          let d3 := r4.takeWhile Char.isDigit
          let r5 := r4.dropWhile Char.isDigit
          !d3.isEmpty && r5.isEmpty
        | _ => false
    | _ => false

/-- QRegularExpression match of the version pattern (qtpluginloader.cpp:109). -/
def matchVersion (s : String) : Bool :=
  verMatch s.data

/-- One character of the id character class [a-z0-9_]
(qtpluginloader.cpp:112). -/
def isIdChar (c : Char) : Bool :=
  (('a' ≤ c && c ≤ 'z') || ('0' ≤ c && c ≤ '9') || c = '_')

/-- The validation errors collected by the QtPluginLoader constructor
(qtpluginloader.cpp:94-121), as tagged entries; `renderError` gives the
exact message strings pushed into the QStringList. -/
inductive VError where
  | invalidIID
  | incompatMajor (maj rM : Nat)
  | incompatMinor (minr rm : Nat)
  | invalidVersion
  | invalidId
  | emptyName
  | emptyDesc
deriving DecidableEq

/-- The exact message strings of qtpluginloader.cpp:98-120.  For a failed
match, QRegularExpressionMatch::captured() is the null string, so the
invalid-pattern message always interpolates an empty capture. -/
def renderError : VError → String
  | VError.invalidIID =>
      ("Invalid IID pattern: \x27\x27. Expected \x27org.albert.PluginInterface/(\\d+).(\\d+)\x27.")
  | VError.incompatMajor maj rM =>
      ("Incompatible major version: ") ++ toString maj ++ (". Expected: ") ++ toString rM ++ (".")
  | VError.incompatMinor minr rm =>
      ("Incompatible minor version: ") ++ toString minr ++ (". Supported up to: ") ++ toString rm ++ (".")
  | VError.invalidVersion => ("Invalid version scheme. Use \x27<version>.<patch>\x27.")
  | VError.invalidId => ("Invalid plugin id. Use [a-z0-9_].")
  | VError.emptyName => ("\x27name\x27 must not be empty.")
  | VError.emptyDesc => ("\x27description\x27 must not be empty.")

/-- The IID check chain (qtpluginloader.cpp:96-105): pattern match, else-if
on the major capture against the runtime major, else-if on the minor
capture against the runtime minor. -/
def iidErrors (iid : String) (rM rm : Nat) : List VError :=
  match matchIID iid with
  | none => [VError.invalidIID]
  | some (maj, minr) =>
    if maj ≠ rM then [VError.incompatMajor maj rM]
    else if minr > rm then [VError.incompatMinor minr rm]
    else []

/-- The version check (qtpluginloader.cpp:108-110). -/
def versionErrors (v : String) : List VError :=
  if matchVersion v then [] else [VError.invalidVersion]

/-- The id check (qtpluginloader.cpp:112-114): hasMatch of the unanchored
single-character class regex, true exactly when some character of the id
is in the class. -/
def idErrors (id : String) : List VError :=
  if id.data.any isIdChar then [] else [VError.invalidId]

/-- The name check (qtpluginloader.cpp:116-117). -/
def nameErrors (n : String) : List VError :=
  if n = ("") then [VError.emptyName] else []

/-- The description check (qtpluginloader.cpp:119-120). -/
def descErrors (d : String) : List VError :=
  if d = ("") then [VError.emptyDesc] else []

/-- The full validation block of the constructor (qtpluginloader.cpp:92-121)
in source order: IID chain, version, id, name, description.  All five
groups are checked independently. -/
def validate (md : PluginMetaData) (rM rm : Nat) : List VError :=
  iidErrors md.iid rM rm ++ versionErrors md.version ++ idErrors md.id
    ++ nameErrors md.name ++ descErrors md.description

/-- The QtPluginLoader constructor (qtpluginloader.cpp:33-124) as a fallible
computation: an empty IID aborts before metadata validation with the
fixed message (line 59-60); otherwise metadata is extracted and the
validation errors, if any, are joined with a comma separator and thrown
(line 122-123). -/
def construct (iid : String) (raw : JsonObj) (ln lc : String) (rM rm : Nat) :
    Except String PluginMetaData :=
  if iid = ("") then Except.error ("Not an albert plugin")
  else
    let md := extractMetadata iid raw ln lc
    let errs := validate md rM rm
    if errs.isEmpty then Except.ok md
    else Except.error (String.intercalate (", ") (errs.map renderError))

/-- Modelled from the spec: the PluginLoader state set of section 3; the
enum itself lives in pluginloaderprivate.h, which is not under src. -/
inductive PluginState where
  | Unloaded
  | Loading
  | Loaded
  | Unloading
  | Failed
deriving DecidableEq

/-- A native object produced by QPluginLoader::instance; the flag records
whether the dynamic_cast to albert::PluginInstance succeeds. -/
structure NativeObj where
  isPluginInstance : Bool
deriving DecidableEq

/-- The observable fields of a QtPluginLoader: its lifecycle state, the
owned instance pointer, and the plugin id of its metadata. -/
structure QtLoader where
  state : PluginState
  instance_ : Option NativeObj
  metadataId : String
deriving DecidableEq

/-- QtPluginLoader::load (qtpluginloader.cpp:138-147).  The resolved
argument is the result of QPluginLoader::instance (none models a link
failure with linkErr the loader error string).  A failed dynamic_cast
assigns null to the instance pointer and returns the fixed type-mismatch
message; a successful cast stores the instance and returns no error. -/
def QtLoader.load (l : QtLoader) (resolved : Option NativeObj) (linkErr : String) :
    QtLoader × Option String :=
  match resolved with
  | some obj =>
    if obj.isPluginInstance then ({ l with instance_ := some obj }, none)
    else ({ l with instance_ := none }, some ("Plugin is not of type albert::PluginInstance."))
  | none => (l, some linkErr)

/-- Modelled from the spec: the state bookkeeping around load (sections 3
and 4.3), which lives outside src (pluginloaderprivate.h).  A successful
load ends in Loaded; a failed load returns to Unloaded after reporting. -/
def QtLoader.loadStep (l : QtLoader) (resolved : Option NativeObj) (linkErr : String) :
    QtLoader × Option String :=
  let r := QtLoader.load l resolved linkErr
  match r.2 with
  | none => ({ r.1 with state := PluginState.Loaded }, none)
  | some e => ({ r.1 with state := PluginState.Unloaded }, some e)

/-- The observable sequencing of QtPluginLoader::unload. -/
inductive UEvent where
  | destroyInstance
  | clearInstanceField
  | releaseModule
deriving DecidableEq

/-- QtPluginLoader::unload (qtpluginloader.cpp:157-162): delete the owned
instance (line 159), null the pointer (line 160), then call
QPluginLoader::unload and return its error string on failure (line 161).
The event trace records the source line order; nativeOk is the outcome of
the native QPluginLoader::unload call and nativeErr its error string. -/
def QtLoader.unload (l : QtLoader) (nativeOk : Bool) (nativeErr : String) :
    QtLoader × List UEvent × Option String :=
  let l1 : QtLoader := { l with instance_ := none }
  (l1, [UEvent.destroyInstance, UEvent.clearInstanceField, UEvent.releaseModule],
   if nativeOk then none else some nativeErr)

/-- Modelled from the spec: the state bookkeeping around unload (section
4.3), which lives outside src.  On success the loader becomes Unloaded; on
failure it keeps its state, so a Loaded loader remains Loaded and unload
can be retried. -/
def QtLoader.unloadStep (l : QtLoader) (nativeOk : Bool) (nativeErr : String) :
    QtLoader × List UEvent × Option String :=
  let r := QtLoader.unload l nativeOk nativeErr
  match r.2.2 with
  | none => ({ r.1 with state := PluginState.Unloaded }, r.2.1, none)
  | some e => (r.1, r.2.1, some e)

/-- The literal the destructor streams before the plugin id
(qtpluginloader.cpp:129). -/
def dtorWarnText : String :=
  ("Logic error: QtPluginLoader destroyed in non Unloaded state:")

/-- The QtPluginLoader destructor (qtpluginloader.cpp:126-130): a total
function (it never throws); when the state is not Unloaded it emits a
warning built from the WARN stream arguments, the literal followed by the
plugin id, and otherwise emits nothing. -/
def QtLoader.destructorDiag (l : QtLoader) : Option (List String) :=
  if l.state ≠ PluginState.Unloaded then some [dtorWarnText, l.metadataId]
  else none

/-- A row of the trigger table model (triggerwidget.cpp:20-24); the handler
is identified by an abstract id. -/
structure TEntry where
  handler : Nat
  trigger : String
  enabled : Bool
deriving DecidableEq

/-- The two QVariant readings TriggerModel::setData performs. -/
structure QVariantV where
  toStringV : String
  toUIntV : Nat
deriving DecidableEq

/-- A call into the QueryEngine issued by TriggerModel::setData. -/
inductive EngineCall where
  | setTrigger (h : Nat) (t : String)
  | setEnabled (h : Nat) (b : Bool)
deriving DecidableEq

/-- Qt::EditRole. -/
def editRole : Nat := 2

/-- Qt::CheckStateRole. -/
def checkStateRole : Nat := 10

/-- The Trigger column index ((int)Column::Trigger, triggerwidget.cpp:12-16). -/
def triggerColumn : Nat := 1

/-- TriggerModel::setData (triggerwidget.cpp:116-139), returning the bool
result together with the list of engine calls it issues.  Qt guarantees a
valid row index for setData, so the row lookup uses a default entry.  An
empty trigger string is rejected before any engine call. -/
def TriggerModel.setData (entries : List TEntry) (row col : Nat) (value : QVariantV)
    (role : Nat) : Bool × List EngineCall :=
  if col = triggerColumn then
    if role = editRole then
      if value.toStringV = ("") then (false, [])
      else
        (true, [EngineCall.setTrigger (entries.getD row ⟨0, (""), false⟩).handler value.toStringV])
    else if role = checkStateRole then
      (true, [EngineCall.setEnabled (entries.getD row ⟨0, (""), false⟩).handler (value.toUIntV = 2)])
    else (false, [])
  else (false, [])

/-- Modelled from the spec: the QueryEngine handler configuration of
section 3, a per-handler record of trigger and enabled flag; queryengine.h
is not under src. -/
structure EngineState where
  config : List (Nat × String × Bool)
deriving DecidableEq

/-- Modelled from the spec: QueryEngine.setTrigger and setEnabled (section
4.5).  setTrigger rejects an empty trigger and otherwise updates the
config record of the handler; setEnabled toggles the enabled flag. -/
def QueryEngine.applyCall (st : EngineState) (c : EngineCall) : EngineState :=
  match c with
  | EngineCall.setTrigger h t =>
    if t = ("") then st
    else { config := st.config.map (fun e => if e.1 = h then (e.1, t, e.2.2) else e) }
  | EngineCall.setEnabled h b =>
    { config := st.config.map (fun e => if e.1 = h then (e.1, e.2.1, b) else e) }

/-- Sequencing of engine calls. -/
def QueryEngine.applyCalls (st : EngineState) (cs : List EngineCall) : EngineState :=
  cs.foldl QueryEngine.applyCall st

/-- Modelled from the spec: the derived active-trigger table of section 3,
a mapping from trigger string to handler computed from the config with a
first-wins conflict policy. -/
def QueryEngine.activeTriggers (st : EngineState) : List (String × Nat) :=
  st.config.filterMap (fun e => if e.2.2 then some (e.2.1, e.1) else none)

/-- A JSON object holding only string entries, given as an association
list; absent keys read as null, as Qt yields undefined for them. -/
def jsonOfList (js : List (String × String)) : JsonObj :=
  fun k =>
    match js.lookup k with
    | some v => JsonVal.str v
    | none => JsonVal.null

/-- The locale fallback chain in the words of the specification: the value
of key[lang_COUNTRY] if that entry exists and is non-empty, otherwise the
value of key[lang] if that entry exists and is non-empty, otherwise the
value of the plain key (empty when absent).  Spec-side definition, to be
compared with fetchLocalizedMetadata for the refinement claim. -/
def resolveSpec (js : List (String × String)) (ln lc key : String) : String :=
  match js.lookup (qtKeyFormat key ln) with
  | some v =>
    if v ≠ ("") then v
    else
      match js.lookup (qtKeyFormat key lc) with
      | some w => if w ≠ ("") then w else (js.lookup key).getD ("")
      | none => (js.lookup key).getD ("")
  | none =>
    match js.lookup (qtKeyFormat key lc) with
    | some w => if w ≠ ("") then w else (js.lookup key).getD ("")
    | none => (js.lookup key).getD ("")

/-- Sample metadata with an empty name, empty description and malformed
version but a well-formed IID and id. -/
def mdAllEmpty : PluginMetaData :=
  { iid := ("org.albert.PluginInterface/1.0")
    id := ("abc")
    version := ("x")
    name := ("")
    description := ("")
    license := ("")
    url := ("")
    authors := []
    runtime_dependencies := []
    binary_dependencies := []
    third_party_credits := []
    load_type := LoadType.User }

/-- Sample metadata whose id mixes a character outside [a-z0-9_] with one
inside it; every other field is valid. -/
def mdMixedId : PluginMetaData :=
  { iid := ("org.albert.PluginInterface/1.0")
    id := ("A_")
    version := ("1.0")
    name := ("n")
    description := ("d")
    license := ("")
    url := ("")
    authors := []
    runtime_dependencies := []
    binary_dependencies := []
    third_party_credits := []
    load_type := LoadType.User }

/-- Sample metadata with interface version 2.1, to be validated against a
runtime of major 1 and minor 0. -/
def mdMajorTwo : PluginMetaData :=
  { iid := ("org.albert.PluginInterface/2.1")
    id := ("abc")
    version := ("1.0")
    name := ("n")
    description := ("d")
    license := ("")
    url := ("")
    authors := []
    runtime_dependencies := []
    binary_dependencies := []
    third_party_credits := []
    load_type := LoadType.User }

/-- Sample metadata with interface version 1.2, to be validated against a
runtime of major 1 and minor 3. -/
def mdMinorOk : PluginMetaData :=
  { iid := ("org.albert.PluginInterface/1.2")
    id := ("abc")
    version := ("1.0")
    name := ("n")
    description := ("d")
    license := ("")
    url := ("")
    authors := []
    runtime_dependencies := []
    binary_dependencies := []
    third_party_credits := []
    load_type := LoadType.User }

/-- A loader in Loaded state owning a plugin instance, for witnesses. -/
def loadedLoader : QtLoader :=
  { state := PluginState.Loaded, instance_ := some { isPluginInstance := true }, metadataId := ("app") }

/-- A loader in Unloaded state, for witnesses. -/
def unloadedLoader : QtLoader :=
  { state := PluginState.Unloaded, instance_ := none, metadataId := ("app") }

/-- Membership in the validation result decomposes over the five
independent check groups. -/
theorem mem_validate {e : VError} (md : PluginMetaData) (rM rm : Nat) :
    e ∈ validate md rM rm ↔
      e ∈ iidErrors md.iid rM rm ∨ e ∈ versionErrors md.version ∨ e ∈ idErrors md.id ∨
      e ∈ nameErrors md.name ∨ e ∈ descErrors md.description := by
  simp [validate, List.mem_append, or_assoc]

/-- Any entry of the four non-IID check groups is one of their four fixed
tags. -/
theorem mem_tail_shape {e : VError} {v i n d : String}
    (h : e ∈ versionErrors v ∨ e ∈ idErrors i ∨ e ∈ nameErrors n ∨ e ∈ descErrors d) :
    e = VError.invalidVersion ∨ e = VError.invalidId ∨ e = VError.emptyName ∨
      e = VError.emptyDesc := by
  unfold versionErrors idErrors nameErrors descErrors at h
  rcases h with h | h | h | h <;> revert h <;> split <;> simp <;> (intro h; simp [h])

/-- The IID check chain under a successful pattern match. -/
theorem iidErrors_eq_of_match (iid : String) (rM rm maj minr : Nat)
    (h : matchIID iid = some (maj, minr)) :
    iidErrors iid rM rm =
      if maj ≠ rM then [VError.incompatMajor maj rM]
      else if minr > rm then [VError.incompatMinor minr rm] else [] := by
  unfold iidErrors
  rw [h]

/-- C1: metadata validation collects all rule violations instead of
stopping at the first; a module whose metadata has an empty name, an
empty description and a version string rejected by the version pattern
yields, for any runtime version, three distinct error entries, one for
each of the three violated rules. -/
theorem validate_collects_all_c1 (md : PluginMetaData) (rM rm : Nat)
    (hv : matchVersion md.version = false) (hn : md.name = ("")) (hd : md.description = ("")) :
    VError.invalidVersion ∈ validate md rM rm ∧ VError.emptyName ∈ validate md rM rm ∧
      VError.emptyDesc ∈ validate md rM rm ∧ VError.invalidVersion ≠ VError.emptyName ∧
      VError.invalidVersion ≠ VError.emptyDesc ∧ VError.emptyName ≠ VError.emptyDesc := by
  refine ⟨?_, ?_, ?_, by decide, by decide, by decide⟩ <;>
    simp [validate, versionErrors, nameErrors, descErrors, hv, hn, hd, List.mem_append]

/-- C1 witness: the three errors for a concrete module with empty name,
empty description and version string x, at runtime version 1.0. -/
theorem validate_collects_all_c1_witness :
    VError.invalidVersion ∈ validate mdAllEmpty 1 0 ∧ VError.emptyName ∈ validate mdAllEmpty 1 0 ∧
      VError.emptyDesc ∈ validate mdAllEmpty 1 0 ∧ VError.invalidVersion ≠ VError.emptyName ∧
      VError.invalidVersion ≠ VError.emptyDesc ∧ VError.emptyName ≠ VError.emptyDesc :=
  validate_collects_all_c1 mdAllEmpty 1 0 (by decide) rfl rfl

/-- C4: the code accepts ids the claim requires to be rejected.  The id
regex [a-z0-9_] is matched unanchored, so an id containing one character
of the class passes even when other characters fall outside it: the id
A_ is not made of class characters only, is non-empty, and still
produces no invalid-plugin-id error. -/
theorem id_regex_unanchored_c4 :
    (("A_").data.all isIdChar = false) ∧ ("A_") ≠ ("") ∧
      VError.invalidId ∉ validate mdMixedId 1 0 := by decide

/-- C10: load-type parsing is total and silently defaults.  frontend maps
to Frontend, nounload maps to NoUnload, the empty string (also produced
by a missing or non-string loadtype key) and every other string map to
User; extraction reads exactly the loadtype key through toString; and the
validation result never depends on the parsed load type, so no
diagnostic is produced for an unrecognized value. -/
theorem parseLoadType_defaults_c10 (raw : JsonObj) (iid ln lc : String) (rM rm : Nat)
    (md : PluginMetaData) (lt : LoadType) :
    parseLoadType ("frontend") = LoadType.Frontend ∧
      parseLoadType ("nounload") = LoadType.NoUnload ∧
      parseLoadType ("") = LoadType.User ∧
      (∀ s : String, s ≠ ("frontend") → s ≠ ("nounload") → parseLoadType s = LoadType.User) ∧
      (extractMetadata iid raw ln lc).load_type = parseLoadType (raw ("loadtype")).toStringQ ∧
      validate { md with load_type := lt } rM rm = validate md rM rm := by
  refine ⟨by decide, by decide, by decide, ?_, rfl, rfl⟩
  intro s h1 h2
  simp [parseLoadType, h1, h2]

/-- C10 witness: a misspelled load type maps to User. -/
theorem parseLoadType_defaults_c10_witness :
    parseLoadType ("frontent") = LoadType.User :=
  (parseLoadType_defaults_c10 (fun _ => JsonVal.null) ("") ("") ("") 0 0 mdAllEmpty
    LoadType.User).2.2.2.1 ("frontent") (by decide) (by decide)

/-- C5 counterexample: the checks are an else-if chain, so a wrong major
version suppresses the minor check.  For interface version 2.1 against
runtime 1.0 the minor capture 1 is strictly greater than the runtime
minor 0, yet no incompatible-minor-version error is produced, refuting
the exactly-when reading of the claim. -/
theorem iid_version_chain_c5_counterexample :
    matchIID mdMajorTwo.iid = some (2, 1) ∧
      ¬ ((VError.incompatMinor 1 0 ∈ validate mdMajorTwo 1 0) ↔ 1 > 0) := by decide

/-- C5 amended: for a module whose interface id matches the IID pattern,
validation yields the incompatible-major error exactly when the major
capture differs from the runtime major, and the incompatible-minor error
exactly when the major matches and the minor capture is strictly greater
than the runtime minor; a non-matching interface id yields the
invalid-pattern error instead. -/
theorem iid_version_checks_c5 (md : PluginMetaData) (rM rm : Nat) :
    (∀ maj minr, matchIID md.iid = some (maj, minr) →
      ((VError.incompatMajor maj rM ∈ validate md rM rm) ↔ maj ≠ rM) ∧
      ((VError.incompatMinor minr rm ∈ validate md rM rm) ↔ (maj = rM ∧ minr > rm))) ∧
    (matchIID md.iid = none → VError.invalidIID ∈ validate md rM rm) := by
  constructor
  · intro maj minr h
    have hiid := iidErrors_eq_of_match md.iid rM rm maj minr h
    constructor
    · rw [mem_validate, hiid]
      constructor
      · rintro (hm | hm)
        · by_cases h1 : maj = rM
          · simp [h1] at hm
          · exact h1
        · rcases mem_tail_shape hm with he | he | he | he <;> simp at he
      · intro h1
        exact Or.inl (by simp [h1])
    · rw [mem_validate, hiid]
      constructor
      · rintro (hm | hm)
        · by_cases h1 : maj = rM
          · simp [h1] at hm
            exact ⟨h1, hm⟩
          · simp [h1] at hm
        · rcases mem_tail_shape hm with he | he | he | he <;> simp at he
      · rintro ⟨h1, h2⟩
        refine Or.inl ?_
        simp [h1, h2]
  · intro h
    rw [mem_validate]
    refine Or.inl ?_
    unfold iidErrors
    rw [h]
    simp

/-- C5 witness: interface version 1.2 against runtime 1.3, where the major
matches and the minor is within range, yields neither version error. -/
theorem iid_version_checks_c5_witness :
    ((VError.incompatMajor 1 1 ∈ validate mdMinorOk 1 3) ↔ (1 : Nat) ≠ 1) ∧
      ((VError.incompatMinor 2 3 ∈ validate mdMinorOk 1 3) ↔ ((1 : Nat) = 1 ∧ 2 > 3)) :=
  (iid_version_checks_c5 mdMinorOk 1 3).1 1 2 (by decide)

/-- C7 counterexample: a module with an empty IID string makes construction
fail with the fixed message thrown before validation, although the
validation error list of its metadata is non-empty; the surfaced error is
not the joined list of validation messages, refuting the claim as
stated. -/
theorem construct_empty_iid_c7_counterexample :
    construct ("") (fun _ => JsonVal.null) ("en_US") ("en") 1 0 =
        Except.error ("Not an albert plugin") ∧
      validate (extractMetadata ("") (fun _ => JsonVal.null) ("en_US") ("en")) 1 0 ≠ [] ∧
      ("Not an albert plugin") ≠ String.intercalate (", ")
        ((validate (extractMetadata ("") (fun _ => JsonVal.null) ("en_US") ("en")) 1 0).map
          renderError) := by
  refine ⟨rfl, by decide, by decide⟩

/-- C7 amended: construction fails exactly when the validation error list
of the extracted metadata is non-empty; when the IID string is non-empty
the surfaced error is the single string joining all collected messages,
and when the IID string is empty construction fails earlier with the
fixed not-a-plugin message instead of the joined list. -/
theorem construct_surfaces_errors_c7 (iid : String) (raw : JsonObj) (ln lc : String)
    (rM rm : Nat) :
    ((∃ e, construct iid raw ln lc rM rm = Except.error e) ↔
        validate (extractMetadata iid raw ln lc) rM rm ≠ []) ∧
      (iid ≠ ("") → validate (extractMetadata iid raw ln lc) rM rm ≠ [] →
        construct iid raw ln lc rM rm =
          Except.error (String.intercalate (", ")
            ((validate (extractMetadata iid raw ln lc) rM rm).map renderError))) ∧
      (iid = ("") → construct iid raw ln lc rM rm = Except.error ("Not an albert plugin")) := by
  by_cases hiid : iid = ("")
  · subst hiid
    have hne : validate (extractMetadata ("") raw ln lc) rM rm ≠ [] := by
      have h0 : matchIID (extractMetadata ("") raw ln lc).iid = none := rfl
      simp [validate, iidErrors, h0]
    refine ⟨?_, ?_, ?_⟩
    · simp only [construct, if_pos rfl]
      exact ⟨fun _ => hne, fun _ => ⟨("Not an albert plugin"), rfl⟩⟩
    · intro h
      exact absurd rfl h
    · intro _
      rfl
  · refine ⟨?_, ?_, ?_⟩
    · constructor
      · rintro ⟨e, he⟩ h0
        simp [construct, hiid, h0] at he
      · intro h0
        refine ⟨String.intercalate (", ")
          ((validate (extractMetadata iid raw ln lc) rM rm).map renderError), ?_⟩
        simp [construct, hiid, List.isEmpty_iff, h0]
    · intro _ h0
      simp [construct, hiid, List.isEmpty_iff, h0]
    · intro h
      exact absurd h hiid

/-- C7 witness: for a module with a well-formed IID but empty metadata
object the construction error is the joined message list. -/
theorem construct_surfaces_errors_c7_witness :
    construct ("org.albert.PluginInterface/1.0") (fun _ => JsonVal.null) ("en_US") ("en") 1 0 =
      Except.error (String.intercalate (", ")
        ((validate (extractMetadata ("org.albert.PluginInterface/1.0") (fun _ => JsonVal.null)
          ("en_US") ("en")) 1 0).map renderError)) :=
  (construct_surfaces_errors_c7 ("org.albert.PluginInterface/1.0") (fun _ => JsonVal.null)
    ("en_US") ("en") 1 0).2.1 (by decide) (by decide)

/-- C8: locale resolution of a metadata key is the pure fallback chain of
the specification: the value at key[lang_COUNTRY] when that entry exists
and is non-empty, otherwise the value at key[lang] when that entry exists
and is non-empty, otherwise the value at the plain key. -/
theorem fetchLocalizedMetadata_chain_c8 (js : List (String × String)) (ln lc key : String) :
    fetchLocalizedMetadata (jsonOfList js) ln lc key = resolveSpec js ln lc key := by
  unfold fetchLocalizedMetadata resolveSpec jsonOfList
  cases h1 : js.lookup (qtKeyFormat key ln) <;>
    cases h2 : js.lookup (qtKeyFormat key lc) <;>
    cases h3 : js.lookup key <;>
    simp [h1, h2, h3, JsonVal.toStringQ]

/-- C2: for a loader in Loaded state, unload destroys the owned instance
and clears the instance field before releasing the native module, in the
source line order recorded by the event trace; when the native release
fails the returned error is the underlying failure message and the loader
remains Loaded, so unload can be retried; when it succeeds the loader
returns no error and becomes Unloaded. -/
theorem unload_order_and_retry_c2 (l : QtLoader) (ok : Bool) (err : String)
    (hL : l.state = PluginState.Loaded) :
    (QtLoader.unloadStep l ok err).1.instance_ = none ∧
      (QtLoader.unloadStep l ok err).2.1 =
        [UEvent.destroyInstance, UEvent.clearInstanceField, UEvent.releaseModule] ∧
      (ok = false → (QtLoader.unloadStep l ok err).2.2 = some err ∧
        (QtLoader.unloadStep l ok err).1.state = PluginState.Loaded) ∧
      (ok = true → (QtLoader.unloadStep l ok err).2.2 = none ∧
        (QtLoader.unloadStep l ok err).1.state = PluginState.Unloaded) := by
  cases ok <;> simp [QtLoader.unloadStep, QtLoader.unload, hL]

/-- C2 witness: a concrete Loaded loader whose native release fails keeps
state Loaded and reports the native error, with the instance destroyed
first. -/
theorem unload_order_and_retry_c2_witness :
    (QtLoader.unloadStep loadedLoader false ("cannot unload")).1.instance_ = none ∧
      (QtLoader.unloadStep loadedLoader false ("cannot unload")).2.1 =
        [UEvent.destroyInstance, UEvent.clearInstanceField, UEvent.releaseModule] ∧
      (false = false → (QtLoader.unloadStep loadedLoader false ("cannot unload")).2.2 =
          some ("cannot unload") ∧
        (QtLoader.unloadStep loadedLoader false ("cannot unload")).1.state =
          PluginState.Loaded) ∧
      (false = true → (QtLoader.unloadStep loadedLoader false ("cannot unload")).2.2 = none ∧
        (QtLoader.unloadStep loadedLoader false ("cannot unload")).1.state =
          PluginState.Unloaded) :=
  unload_order_and_retry_c2 loadedLoader false ("cannot unload") rfl

/-- C3: the destructor is a total function, so destroying a loader in any
state completes normally; when the state is not Unloaded it emits a
warning whose stream arguments name the plugin id, and when the state is
Unloaded it emits no diagnostic. -/
theorem destructor_guard_c3 (l : QtLoader) :
    (l.state ≠ PluginState.Unloaded →
      QtLoader.destructorDiag l = some [dtorWarnText, l.metadataId] ∧
      l.metadataId ∈ [dtorWarnText, l.metadataId]) ∧
    (l.state = PluginState.Unloaded → QtLoader.destructorDiag l = none) := by
  constructor
  · intro h
    simp [QtLoader.destructorDiag, h]
  · intro h
    simp [QtLoader.destructorDiag, h]

/-- C3 witness: a Loaded loader produces the diagnostic naming its id; an
Unloaded loader produces none. -/
theorem destructor_guard_c3_witness :
    (QtLoader.destructorDiag loadedLoader = some [dtorWarnText, loadedLoader.metadataId] ∧
      loadedLoader.metadataId ∈ [dtorWarnText, loadedLoader.metadataId]) ∧
      QtLoader.destructorDiag unloadedLoader = none :=
  ⟨(destructor_guard_c3 loadedLoader).1 (by decide),
   (destructor_guard_c3 unloadedLoader).2 rfl⟩

/-- C6: when the native instance resolves but the dynamic_cast to
albert::PluginInstance fails, load returns exactly the fixed type
mismatch message and the loader does not end in the Loaded state; when
the cast succeeds, load returns no error. -/
theorem load_cast_failure_c6 (l : QtLoader) (obj : NativeObj) (linkErr : String) :
    (obj.isPluginInstance = false →
      (QtLoader.loadStep l (some obj) linkErr).2 =
          some ("Plugin is not of type albert::PluginInstance.") ∧
        (QtLoader.loadStep l (some obj) linkErr).1.state ≠ PluginState.Loaded) ∧
    (obj.isPluginInstance = true → (QtLoader.loadStep l (some obj) linkErr).2 = none) := by
  constructor
  · intro h
    simp [QtLoader.loadStep, QtLoader.load, h]
  · intro h
    simp [QtLoader.loadStep, QtLoader.load, h]

/-- C6 witness: a resolved instance that is not a PluginInstance yields the
fixed message and a non-Loaded loader. -/
theorem load_cast_failure_c6_witness :
    (QtLoader.loadStep unloadedLoader (some { isPluginInstance := false }) ("")).2 =
        some ("Plugin is not of type albert::PluginInstance.") ∧
      (QtLoader.loadStep unloadedLoader (some { isPluginInstance := false }) ("")).1.state ≠
        PluginState.Loaded :=
  (load_cast_failure_c6 unloadedLoader { isPluginInstance := false } ("")).1 rfl

/-- C9: an edit of the trigger column with an empty value is rejected:
setData returns false, issues no engine call at all (in particular no
setTrigger call), and therefore both the handler configuration and the
derived active-trigger table are unchanged. -/
theorem setData_empty_trigger_c9 (entries : List TEntry) (row : Nat) (value : QVariantV)
    (st : EngineState) (hv : value.toStringV = ("")) :
    (TriggerModel.setData entries row triggerColumn value editRole).1 = false ∧
      (TriggerModel.setData entries row triggerColumn value editRole).2 = [] ∧
      (∀ h t, EngineCall.setTrigger h t ∉
        (TriggerModel.setData entries row triggerColumn value editRole).2) ∧
      QueryEngine.applyCalls st (TriggerModel.setData entries row triggerColumn value editRole).2
        = st ∧
      QueryEngine.activeTriggers (QueryEngine.applyCalls st
          (TriggerModel.setData entries row triggerColumn value editRole).2) =
        QueryEngine.activeTriggers st := by
  simp [TriggerModel.setData, hv, QueryEngine.applyCalls]

/-- C9 witness: a concrete row edited with the empty string changes
nothing. -/
theorem setData_empty_trigger_c9_witness :
    (TriggerModel.setData [⟨7, ("t"), true⟩] 0 triggerColumn ⟨(""), 0⟩ editRole).1 = false ∧
      (TriggerModel.setData [⟨7, ("t"), true⟩] 0 triggerColumn ⟨(""), 0⟩ editRole).2 = [] ∧
      (∀ h t, EngineCall.setTrigger h t ∉
        (TriggerModel.setData [⟨7, ("t"), true⟩] 0 triggerColumn ⟨(""), 0⟩ editRole).2) ∧
      QueryEngine.applyCalls ⟨[(7, ("t"), true)]⟩
          (TriggerModel.setData [⟨7, ("t"), true⟩] 0 triggerColumn ⟨(""), 0⟩ editRole).2 =
        ⟨[(7, ("t"), true)]⟩ ∧
      QueryEngine.activeTriggers (QueryEngine.applyCalls ⟨[(7, ("t"), true)]⟩
          (TriggerModel.setData [⟨7, ("t"), true⟩] 0 triggerColumn ⟨(""), 0⟩ editRole).2) =
        QueryEngine.activeTriggers ⟨[(7, ("t"), true)]⟩ :=
  setData_empty_trigger_c9 [⟨7, ("t"), true⟩] 0 ⟨(""), 0⟩ ⟨[(7, ("t"), true)]⟩ rfl
